import Mathlib

/-!
Shallow embedding of `src/bot.py`, a bot that scrapes a municipal
appointment-booking page for the earliest available appointment date and
notifies a Telegram recipient when an earlier slot appears.

External effects are modelled explicitly:
* outbound Telegram messages become a list of `Attempt` records
  (recipient, text, and whether the HTTP call succeeded);
* the success of the underlying HTTP send becomes a `Bool` parameter `ok`;
* the browser navigation steps of the scraper become `Except String Unit`
  fields of a `PageEnv` record, one per wait/click in the source;
* the `getUpdates` poll becomes a function from the offset to an
  `Except String (List Update)`;
* reading the state file becomes an `Except String BotState` argument.
-/

namespace TevisBot

/-- Configuration read from environment variables at the top of `bot.py`:
`MY_CURRENT_APPOINTMENT`, `TELEGRAM_CHAT_ID`, `HEARTBEAT_HOUR`, and the
module constant `HEARTBEAT_WINDOW_MINUTES`. -/
structure Config where
  myCurrentAppointment : Nat
  defaultChatId : String
  heartbeatHour : Nat
  heartbeatWindowMinutes : Nat
deriving DecidableEq

/-- The flat persisted record of `state.json`.  All three fields are
optional; a missing key reads as `none` (Python `dict.get`). -/
structure BotState where
  last_ping_date : Option String
  last_update_id : Option Int
  last_notified_earliest : Option Nat
deriving DecidableEq

/-- The empty record `{}` that `load_state` returns on failure. -/
def emptyState : BotState := ⟨none, none, none⟩

/-- `load_state`: `try: return json.load(f) except Exception: return {}`.
The outcome of opening and parsing the file is the `raw` argument. -/
def load_state (raw : Except String BotState) : BotState :=
  match raw with
  | .error _ => emptyState
  | .ok s => s

/-- One attempted `sendMessage` HTTP call: recipient chat id, message
text, and whether the call succeeded. -/
structure Attempt where
  chat : String
  text : String
  delivered : Bool
deriving DecidableEq

/-- `tg_api("sendMessage", ...)`: raises (returns `.error`) when the HTTP
response is not ok; `ok` abstracts the network outcome. -/
def tg_api_send (ok : Bool) : Except String Unit :=
  if ok then .ok () else .error "Telegram API error"

/-- Body of `send_telegram` with the exception channel visible: an empty
`chat_id` is skipped; a `tg_api` failure is caught by the `except` clause
(logged) and still yields a normal `.ok` return. -/
def send_telegram_run (chat_id text : String) (ok : Bool) :
    Except String (List Attempt) :=
  if chat_id = "" then .ok []
  else
    match tg_api_send ok with
    | .ok _ => .ok [⟨chat_id, text, true⟩]
    | .error _ => .ok [⟨chat_id, text, false⟩]

/-- `send_telegram` as its callers see it: a total function returning the
list of attempted sends (empty when skipped). -/
def send_telegram (chat_id text : String) (ok : Bool) : List Attempt :=
  match send_telegram_run chat_id text ok with
  | .ok l => l
  | .error _ => []

/-- `int(val)` on a decimal digit string (folded over the characters). -/
def parseDigits (s : String) : Nat :=
  s.data.foldl (fun n c => n * 10 + (c.toNat - 48)) 0

/-- The collection loop over `date_inputs`: each `get_attribute("value")`
result is an `Option String`; `if val and val.isdigit():
found_dates.add(int(val))` keeps exactly the non-empty all-digit values.
(The Python `set` only removes duplicates, which cannot change the
minimum, so a list of candidates is kept here.) -/
def keepDigits (v : Option String) : Option Nat :=
  match v with
  | none => none
  | some s => if !s.data.isEmpty && s.data.all Char.isDigit then some (parseDigits s) else none

/-- The candidate set built by the collection loop. -/
def candidateDates (vals : List (Option String)) : List Nat :=
  vals.filterMap keepDigits

/-- `if not found_dates: return None` followed by `min(found_dates)`. -/
def scrapeDates (vals : List (Option String)) : Option Nat :=
  match candidateDates vals with
  | [] => none
  | d :: ds => some (ds.foldl min d)

/-- The page as the scraper sees it: one `Except` outcome per navigation
step of `check_for_appointments` (goto, optional cookie decline, the three
waits and clicks, the shorter wait for `.suggestion_form`), plus the
`value` attributes of the date inputs. -/
structure PageEnv where
  goto : Except String Unit
  cookieStep : Except String Unit
  waitInputBox : Except String Unit
  clickPlus : Except String Unit
  clickWeiterOne : Except String Unit
  waitDialog : Except String Unit
  clickDialogOk : Except String Unit
  waitLocation : Except String Unit
  clickWeiterTwo : Except String Unit
  waitSuggestionForm : Except String Unit
  dateValues : List (Option String)

/-- The navigation steps before the inner `try` around
`wait_for_selector(".suggestion_form")`, sequenced left to right; the
first failing step aborts the rest (a raised exception). -/
def navChecks (env : PageEnv) : Except String Unit :=
  env.goto.bind fun _ =>
  env.cookieStep.bind fun _ =>
  env.waitInputBox.bind fun _ =>
  env.clickPlus.bind fun _ =>
  env.clickWeiterOne.bind fun _ =>
  env.waitDialog.bind fun _ =>
  env.clickDialogOk.bind fun _ =>
  env.waitLocation.bind fun _ =>
  env.clickWeiterTwo

/-- The `try` body of `check_for_appointments`: after the navigation
steps, a timeout waiting for `.suggestion_form` is caught by the inner
`except` and returns `None` (no slots); otherwise the date inputs are
collected and the minimum returned. -/
def scrapeNav (env : PageEnv) : Except String (Option Nat) :=
  (navChecks env).bind fun _ =>
    match env.waitSuggestionForm with
    | .error _ => .ok none
    | .ok _ => .ok (scrapeDates env.dateValues)

/-- `check_for_appointments`: the outer `except Exception` maps any raised
error to `None`. -/
def check_for_appointments (env : PageEnv) : Option Nat :=
  match scrapeNav env with
  | .error _ => none
  | .ok r => r

/-- The local clock as `maybe_send_daily_heartbeat` reads it:
`now.hour`, `now.minute`, `now.date().isoformat()`, and the formatted
timestamp used in the message. -/
structure LocalTime where
  hour : Nat
  minute : Nat
  dateIso : String
  stamp : String
deriving DecidableEq

/-- The heartbeat message text (timestamped liveness message). -/
def heartbeatText (now : LocalTime) : String :=
  "Still alive (" ++ now.stamp ++ ")"

/-- `maybe_send_daily_heartbeat`: skip without a default recipient; skip
when `last_ping_date` equals today; inside the hour and the first
`HEARTBEAT_WINDOW_MINUTES` minutes, send and record today. -/
def maybe_send_daily_heartbeat (cfg : Config) (now : LocalTime) (ok : Bool)
    (st : BotState) : BotState × List Attempt :=
  if cfg.defaultChatId = "" then (st, [])
  else if st.last_ping_date = some now.dateIso then (st, [])
  else if now.hour = cfg.heartbeatHour ∧ now.minute < cfg.heartbeatWindowMinutes then
    ({ st with last_ping_date := some now.dateIso },
     send_telegram cfg.defaultChatId (heartbeatText now) ok)
  else (st, [])

/-- An inbound Telegram message: `msg["chat"]["id"]` and optional text. -/
structure ChatMsg where
  chat_id : Int
  text : Option String
deriving DecidableEq

/-- One element of the `getUpdates` result: optional `update_id` and
optional `message`. -/
structure Update where
  update_id : Option Int
  message : Option ChatMsg
deriving DecidableEq

/-- Reply to `/start`. -/
def startReply : String :=
  "Hi! Send /check to fetch the latest appointment I can see."

/-- Reply to `/check`, `/status` and friends, built from the scrape
result and the configured threshold. -/
def checkReply (cfg : Config) (r : Option Nat) : String :=
  match r with
  | none => "I could not see any slots right now (or the page did not load). Try again later."
  | some e =>
    let note := if e < cfg.myCurrentAppointment then
        "earlier than your current appointment!"
      else "not earlier than your current appointment."
    "Latest check result: Earliest: " ++ toString e ++
      " Current: " ++ toString cfg.myCurrentAppointment ++ " Result: " ++ note

/-- The command dispatch on a non-empty stripped text (case-insensitive
match; unrecognized text is silently ignored). -/
def handleText (cfg : Config) (scrape : Option Nat) (ok : Bool)
    (chat_id text : String) : List Attempt :=
  if text.toLower = "/start" ∨ text.toLower = "start" then
    send_telegram chat_id startReply ok
  else if text.toLower = "/check" ∨ text.toLower = "check" ∨
      text.toLower = "/status" ∨ text.toLower = "status" then
    send_telegram chat_id (checkReply cfg scrape) ok
  else []

/-- One iteration of the `for u in updates` loop: the running maximum is
updated first (`max_update_id = max(max_update_id, u.get("update_id",
max_update_id))`), then messages without text are skipped and commands
dispatched. -/
def stepUpdate (cfg : Config) (scrape : Option Nat) (ok : Bool)
    (acc : Int × List Attempt) (u : Update) : Int × List Attempt :=
  let m := max acc.1 (u.update_id.getD acc.1)
  match u.message with
  | none => (m, acc.2)
  | some msg =>
    let text := (msg.text.getD "").trim
    if text = "" then (m, acc.2)
    else (m, acc.2 ++ handleText cfg scrape ok (toString msg.chat_id) text)

/-- The id component of the loop in isolation: the running maximum of the
present update ids, seeded with the prior offset value. -/
def foldMaxId (a : Int) (us : List Update) : Int :=
  us.foldl (fun b u => max b (u.update_id.getD b)) a

/-- `process_incoming_commands`: poll with offset one past the stored
`last_update_id` (default 0); a poll failure returns with `state`
untouched; an empty batch returns early; otherwise the loop runs and the
tracked maximum is stored. -/
def process_incoming_commands (cfg : Config)
    (poll : Int → Except String (List Update)) (scrape : Option Nat)
    (ok : Bool) (st : BotState) : BotState × List Attempt :=
  match poll (st.last_update_id.getD 0 + 1) with
  | .error _ => (st, [])
  | .ok updates =>
    if updates.isEmpty then (st, [])
    else
      let r := updates.foldl (stepUpdate cfg scrape ok) (st.last_update_id.getD 0, [])
      ({ st with last_update_id := some r.1 }, r.2)

/-- Python `str(...)` as applied to `state.get("last_notified_earliest")`:
`str(None)` is `"None"`, `str(n)` the decimal digits. -/
def strOfNotified : Option Nat → String
  | none => "None"
  | some n => toString n

/-- The alert message sent when an earlier appointment is found. -/
def alertText (cfg : Config) (e : Nat) : String :=
  "Earlier appointment found! Earliest: " ++ toString e ++
    " Current: " ++ toString cfg.myCurrentAppointment

/-- Step 3 of `main`: if the scrape found a date strictly below the
threshold and its string form differs from the stored
`last_notified_earliest`, send the alert (when a default recipient is
configured) and update the state field. -/
def scheduled_alert_pass (cfg : Config) (st : BotState) (earliest : Option Nat)
    (ok : Bool) : BotState × List Attempt :=
  match earliest with
  | none => (st, [])
  | some e =>
    if e < cfg.myCurrentAppointment then
      if toString e ≠ strOfNotified st.last_notified_earliest then
        ({ st with last_notified_earliest := some e },
         if cfg.defaultChatId ≠ "" then send_telegram cfg.defaultChatId (alertText cfg e) ok
         else [])
      else (st, [])
    else (st, [])

/-- `main` after the credential check: load state, process commands, maybe
send the heartbeat, run the scheduled alert pass, and return the final
state (which `save_state` persists) together with all send attempts. -/
def main_run (cfg : Config) (raw : Except String BotState)
    (poll : Int → Except String (List Update)) (now : LocalTime)
    (scrape : Option Nat) (ok : Bool) : BotState × List Attempt :=
  let p1 := process_incoming_commands cfg poll scrape ok (load_state raw)
  let p2 := maybe_send_daily_heartbeat cfg now ok p1.1
  let p3 := scheduled_alert_pass cfg p2.1 scrape ok
  (p3.1, p1.2 ++ p2.2 ++ p3.2)

/-- Sample configuration with a configured recipient. -/
def cfgA : Config := ⟨20260210, "123456", 9, 10⟩

/-- Sample configuration without a default recipient. -/
def cfgNoChat : Config := ⟨20260210, "", 9, 10⟩

/-- Sample state with a previously notified date. -/
def stN : BotState := ⟨none, none, some 20260101⟩

/-- A clock value inside the heartbeat window. -/
def nowIn : LocalTime := ⟨9, 3, "2026-10-12", "2026-10-12 09:03 CEST"⟩

/-- A later clock value inside the same window on the same date. -/
def nowIn2 : LocalTime := ⟨9, 7, "2026-10-12", "2026-10-12 09:07 CEST"⟩

/-- A clock value outside the heartbeat hour. -/
def nowOff : LocalTime := ⟨8, 3, "2026-10-12", "2026-10-12 08:03 CEST"⟩

/-- Sample attribute values: two numeric dates, a missing attribute, an
empty string, and a non-numeric string. -/
def valsW : List (Option String) :=
  [some "20260210", none, some "", some "12ab", some "20260101"]

/-- A batch whose ids arrive out of order. -/
def updatesW : List Update :=
  [⟨some 5, none⟩, ⟨some 3, none⟩, ⟨some 7, none⟩]

/-- A poll that returns `updatesW`. -/
def pollW : Int → Except String (List Update) := fun _ => .ok updatesW

/-- A poll that fails. -/
def pollFail : Int → Except String (List Update) := fun _ => .error "getUpdates failed"

/-- A page where everything works but the suggestion form never appears. -/
def envTimeout : PageEnv :=
  ⟨.ok (), .ok (), .ok (), .ok (), .ok (), .ok (), .ok (), .ok (), .ok (),
   .error "Timeout 7000ms", [some "20260301"]⟩

/-- A page whose initial navigation fails. -/
def envNavFail : PageEnv :=
  ⟨.error "net::ERR_FAILED", .ok (), .ok (), .ok (), .ok (), .ok (), .ok (), .ok (),
   .ok (), .ok (), []⟩

/-- A non-empty recipient produces exactly one attempt, delivered iff the
HTTP call succeeded. -/
theorem send_telegram_eq (c t : String) (ok : Bool) (h : c ≠ "") :
    send_telegram c t ok = [⟨c, t, ok⟩] := by
  cases ok <;> simp [send_telegram, send_telegram_run, tg_api_send, h]

theorem foldMaxId_nil (a : Int) : foldMaxId a [] = a := rfl

theorem foldMaxId_cons (a : Int) (u : Update) (us : List Update) :
    foldMaxId a (u :: us) = foldMaxId (max a (u.update_id.getD a)) us := rfl

theorem foldMaxId_self_le (us : List Update) : ∀ a : Int, a ≤ foldMaxId a us := by
  induction us with
  | nil => intro a; exact le_refl a
  | cons u t ih =>
    intro a
    rw [foldMaxId_cons]
    exact le_trans (le_max_left a _) (ih _)

theorem foldMaxId_bound (us : List Update) : ∀ (a : Int) (u : Update), u ∈ us →
    ∀ i : Int, u.update_id = some i → i ≤ foldMaxId a us := by
  induction us with
  | nil => intro a u hu; exact absurd hu (List.not_mem_nil u)
  | cons v t ih =>
    intro a u hu i hi
    rw [foldMaxId_cons]
    rcases List.mem_cons.mp hu with rfl | h
    · have h1 : u.update_id.getD a = i := by rw [hi]; rfl
      rw [h1]
      exact le_trans (le_max_right a i) (foldMaxId_self_le t _)
    · exact ih _ u h i hi

theorem foldMaxId_attained (us : List Update) : ∀ a : Int,
    foldMaxId a us = a ∨ ∃ u ∈ us, u.update_id = some (foldMaxId a us) := by
  induction us with
  | nil => intro a; exact Or.inl rfl
  | cons v t ih =>
    intro a
    rw [foldMaxId_cons]
    rcases ih (max a (v.update_id.getD a)) with h | ⟨u, hu, hi⟩
    · rw [h]
      cases hv : v.update_id with
      | none =>
        left
        simp [hv]
      | some i =>
        simp only [Option.getD_some]
        rcases max_choice a i with h2 | h2
        · exact Or.inl h2
        · right
          exact ⟨v, List.mem_cons_self v t, by rw [hv, h2]⟩
    · exact Or.inr ⟨u, List.mem_cons_of_mem v hu, hi⟩

theorem foldMaxId_perm (a : Int) (us us' : List Update) (h : us.Perm us') :
    foldMaxId a us = foldMaxId a us' := by
  have key : ∀ l1 l2 : List Update, l1.Perm l2 → foldMaxId a l1 ≤ foldMaxId a l2 := by
    intro l1 l2 hp
    rcases foldMaxId_attained l1 a with h1 | ⟨u, hu, hi⟩
    · rw [h1]; exact foldMaxId_self_le l2 a
    · exact foldMaxId_bound l2 a u (hp.subset hu) _ hi
  exact le_antisymm (key us us' h) (key us' us h.symm)

/-- The id component of a loop step never depends on the dispatched
command. -/
theorem stepUpdate_fst (cfg : Config) (scrape : Option Nat) (ok : Bool)
    (acc : Int × List Attempt) (u : Update) :
    (stepUpdate cfg scrape ok acc u).1 = max acc.1 (u.update_id.getD acc.1) := by
  unfold stepUpdate
  cases u.message with
  | none => rfl
  | some msg =>
    dsimp only
    split <;> rfl

/-- The id component of the whole loop is `foldMaxId`. -/
theorem foldl_step_fst (cfg : Config) (scrape : Option Nat) (ok : Bool) :
    ∀ (us : List Update) (p : Int × List Attempt),
      (us.foldl (stepUpdate cfg scrape ok) p).1 = foldMaxId p.1 us := by
  intro us
  induction us with
  | nil => intro p; rfl
  | cons u t ih =>
    intro p
    rw [List.foldl_cons, foldMaxId_cons]
    calc (t.foldl (stepUpdate cfg scrape ok) (stepUpdate cfg scrape ok p u)).1
        = foldMaxId (stepUpdate cfg scrape ok p u).1 t := ih _
      _ = foldMaxId (max p.1 (u.update_id.getD p.1)) t := by rw [stepUpdate_fst]

theorem list_foldl_min_mem (ds : List Nat) : ∀ d : Nat, ds.foldl min d ∈ d :: ds := by
  induction ds with
  | nil => intro d; simp
  | cons a t ih =>
    intro d
    rw [List.foldl_cons]
    rcases List.mem_cons.mp (ih (min d a)) with h1 | h1
    · rcases min_choice d a with h2 | h2 <;> rw [h1, h2] <;> simp
    · simp [h1]

theorem list_foldl_min_le (ds : List Nat) :
    ∀ d : Nat, ds.foldl min d ≤ d ∧ ∀ x ∈ ds, ds.foldl min d ≤ x := by
  induction ds with
  | nil => intro d; exact ⟨le_refl d, by simp⟩
  | cons a t ih =>
    intro d
    obtain ⟨h1, h2⟩ := ih (min d a)
    rw [List.foldl_cons]
    refine ⟨le_trans h1 (min_le_left d a), ?_⟩
    intro x hx
    rcases List.mem_cons.mp hx with rfl | hx'
    · exact le_trans h1 (min_le_right d x)
    · exact h2 x hx'

/-- C2: among the collected date-input values, exactly the non-empty
purely numeric ones are parsed and kept; the scraper returns `none` iff no
candidate remains, and otherwise returns a candidate that is a lower bound
of all candidates (their minimum). -/
theorem C2_scraper_min (vals : List (Option String)) :
    (scrapeDates vals = none ↔ candidateDates vals = []) ∧
    (∀ m : Nat, scrapeDates vals = some m →
      m ∈ candidateDates vals ∧ ∀ x ∈ candidateDates vals, m ≤ x) ∧
    (∀ (v : Option String) (vs : List (Option String)),
      (v = none ∨ v = some "" ∨ ∃ s, v = some s ∧ s.data.all Char.isDigit = false) →
      candidateDates (v :: vs) = candidateDates vs) ∧
    (∀ (s : String) (vs : List (Option String)), s.data.isEmpty = false →
      s.data.all Char.isDigit = true →
      candidateDates (some s :: vs) = parseDigits s :: candidateDates vs) := by
  refine ⟨?_, ?_, ?_, ?_⟩
  · cases h : candidateDates vals <;> simp [scrapeDates, h]
  · intro m hm
    unfold scrapeDates at hm
    cases h : candidateDates vals with
    | nil => rw [h] at hm; exact absurd hm (by simp)
    | cons d ds =>
      rw [h] at hm
      obtain rfl : ds.foldl min d = m := Option.some.inj hm
      refine ⟨list_foldl_min_mem ds d, ?_⟩
      intro x hx
      rcases List.mem_cons.mp hx with rfl | hx'
      · exact (list_foldl_min_le ds x).1
      · exact (list_foldl_min_le ds d).2 x hx'
  · rintro v vs (rfl | rfl | ⟨s, rfl, hs⟩)
    · rfl
    · rfl
    · have hk : keepDigits (some s) = none := by
        simp only [keepDigits]
        rw [hs, Bool.and_false]
        rfl
      unfold candidateDates
      rw [List.filterMap_cons, hk]
  · intro s vs h1 h2
    have hk : keepDigits (some s) = some (parseDigits s) := by
      simp only [keepDigits]
      rw [h1, h2]
      rfl
    unfold candidateDates
    rw [List.filterMap_cons, hk]

/-- C2 witness: on a sample page the two numeric values are kept, the
missing, empty and non-numeric values are dropped, and the minimum is
returned. -/
theorem C2_scraper_min_witness :
    (scrapeDates valsW = none ↔ candidateDates valsW = []) ∧
    scrapeDates valsW = some 20260101 ∧
    candidateDates valsW = [20260210, 20260101] :=
  ⟨(C2_scraper_min valsW).1, by decide, by decide⟩

/-- C3: any exception in the navigation sequence is caught and mapped to
`none` (stated both for the whole `try` body and for the step sequence
before the inner wait); a timeout waiting for the slot-suggestion form
also yields `none`, whatever the earlier steps did. -/
theorem C3_scraper_catches (env : PageEnv) :
    (∀ e : String, scrapeNav env = .error e → check_for_appointments env = none) ∧
    (∀ e : String, navChecks env = .error e → check_for_appointments env = none) ∧
    ((∃ e : String, env.waitSuggestionForm = .error e) →
      check_for_appointments env = none) := by
  have hbase : ∀ e : String, scrapeNav env = .error e →
      check_for_appointments env = none := by
    intro e h
    unfold check_for_appointments
    rw [h]
  have hnav : ∀ e : String, navChecks env = .error e →
      check_for_appointments env = none := by
    intro e h
    apply hbase e
    unfold scrapeNav
    rw [h]
    rfl
  refine ⟨hbase, hnav, ?_⟩
  rintro ⟨e, hw⟩
  cases hn : navChecks env with
  | error e2 => exact hnav e2 hn
  | ok u =>
    unfold check_for_appointments scrapeNav
    rw [hn]
    simp only [Except.bind, hw]

/-- C3 witness: a suggestion-form timeout yields `none` even though dates
were present, and a failed initial navigation yields `none`. -/
theorem C3_scraper_catches_witness :
    check_for_appointments envTimeout = none ∧
    check_for_appointments envNavFail = none :=
  ⟨(C3_scraper_catches envTimeout).2.2 ⟨"Timeout 7000ms", rfl⟩,
   (C3_scraper_catches envNavFail).2.1 "net::ERR_FAILED" rfl⟩

/-- C4: after a successful poll the stored offset is `foldMaxId` of the
prior value and the batch, which is at least the prior value, an upper
bound of every id present in the batch, attained at the prior value or at
some batch element, and invariant under permutations of the batch. -/
theorem C4_offset_max (cfg : Config) (poll : Int → Except String (List Update))
    (scrape : Option Nat) (ok : Bool) (st : BotState) (updates : List Update)
    (hpoll : poll (st.last_update_id.getD 0 + 1) = .ok updates) :
    (process_incoming_commands cfg poll scrape ok st).1.last_update_id.getD 0 =
      foldMaxId (st.last_update_id.getD 0) updates ∧
    st.last_update_id.getD 0 ≤ foldMaxId (st.last_update_id.getD 0) updates ∧
    (∀ u ∈ updates, ∀ i : Int, u.update_id = some i →
      i ≤ foldMaxId (st.last_update_id.getD 0) updates) ∧
    (foldMaxId (st.last_update_id.getD 0) updates = st.last_update_id.getD 0 ∨
      ∃ u ∈ updates, u.update_id = some (foldMaxId (st.last_update_id.getD 0) updates)) ∧
    (∀ us' : List Update, us'.Perm updates →
      foldMaxId (st.last_update_id.getD 0) us' =
        foldMaxId (st.last_update_id.getD 0) updates) := by
  refine ⟨?_, foldMaxId_self_le updates _,
    fun u hu i hi => foldMaxId_bound updates _ u hu i hi,
    foldMaxId_attained updates _,
    fun us' hp => foldMaxId_perm _ us' updates hp⟩
  unfold process_incoming_commands
  rw [hpoll]
  by_cases hemp : updates = []
  · subst hemp
    simp [foldMaxId]
  · have hne : updates.isEmpty = false := by
      cases updates with
      | nil => exact absurd rfl hemp
      | cons u t => rfl
    simp only [hne, Bool.false_eq_true, if_false]
    simp only [Option.getD_some]
    exact foldl_step_fst cfg scrape ok updates _

/-- C4 witness: a batch with ids `[5, 3, 7]` over prior value 0 stores 7. -/
theorem C4_offset_max_witness :
    (process_incoming_commands cfgA pollW none true emptyState).1.last_update_id.getD 0 =
      foldMaxId (emptyState.last_update_id.getD 0) updatesW ∧
    (process_incoming_commands cfgA pollW none true emptyState).1.last_update_id = some 7 :=
  ⟨(C4_offset_max cfgA pollW none true emptyState updatesW rfl).1, by decide⟩

/-- C5: when the poll raises, the command processor returns with the state
record completely unchanged and sends nothing. -/
theorem C5_poll_failure (cfg : Config) (poll : Int → Except String (List Update))
    (scrape : Option Nat) (ok : Bool) (st : BotState) (e : String)
    (h : poll (st.last_update_id.getD 0 + 1) = .error e) :
    process_incoming_commands cfg poll scrape ok st = (st, []) := by
  unfold process_incoming_commands
  rw [h]

/-- C5 witness: a failing poll leaves the empty state untouched. -/
theorem C5_poll_failure_witness :
    process_incoming_commands cfgA pollFail none true emptyState = (emptyState, []) :=
  C5_poll_failure cfgA pollFail none true emptyState "getUpdates failed" rfl

/-- C6: two invocations inside the send window on the same local date,
sharing the state record and starting from a day with no recorded ping:
the first sends (and records today), the second sends nothing and leaves
the state as the first left it. -/
theorem C6_heartbeat_once (cfg : Config) (n1 n2 : LocalTime) (ok1 ok2 : Bool)
    (st : BotState) (hchat : cfg.defaultChatId ≠ "")
    (hdate : n2.dateIso = n1.dateIso)
    (hw1 : n1.hour = cfg.heartbeatHour ∧ n1.minute < cfg.heartbeatWindowMinutes)
    (hw2 : n2.hour = cfg.heartbeatHour ∧ n2.minute < cfg.heartbeatWindowMinutes)
    (hfresh : st.last_ping_date ≠ some n1.dateIso) :
    (maybe_send_daily_heartbeat cfg n1 ok1 st).2 ≠ [] ∧
    maybe_send_daily_heartbeat cfg n2 ok2 (maybe_send_daily_heartbeat cfg n1 ok1 st).1 =
      ((maybe_send_daily_heartbeat cfg n1 ok1 st).1, []) := by
  have h1 : maybe_send_daily_heartbeat cfg n1 ok1 st =
      ({ st with last_ping_date := some n1.dateIso },
       send_telegram cfg.defaultChatId (heartbeatText n1) ok1) := by
    unfold maybe_send_daily_heartbeat
    rw [if_neg hchat, if_neg hfresh, if_pos hw1]
  constructor
  · rw [h1]
    show send_telegram cfg.defaultChatId (heartbeatText n1) ok1 ≠ []
    rw [send_telegram_eq _ _ _ hchat]
    simp
  · rw [h1]
    show maybe_send_daily_heartbeat cfg n2 ok2
        { st with last_ping_date := some n1.dateIso } =
      ({ st with last_ping_date := some n1.dateIso }, [])
    have hlpd : ({ st with last_ping_date := some n1.dateIso } : BotState).last_ping_date =
        some n2.dateIso := by
      rw [hdate]
    unfold maybe_send_daily_heartbeat
    rw [if_neg hchat, if_pos hlpd]

/-- C6 witness: two in-window invocations at 09:03 and 09:07 on the same
date; only the first produces an attempt. -/
theorem C6_heartbeat_once_witness :
    (maybe_send_daily_heartbeat cfgA nowIn true emptyState).2 ≠ [] ∧
    maybe_send_daily_heartbeat cfgA nowIn2 true
        (maybe_send_daily_heartbeat cfgA nowIn true emptyState).1 =
      ((maybe_send_daily_heartbeat cfgA nowIn true emptyState).1, []) :=
  C6_heartbeat_once cfgA nowIn nowIn2 true true emptyState (by decide) rfl
    ⟨rfl, by decide⟩ ⟨rfl, by decide⟩ (by decide)

/-- C7: the heartbeat does nothing when no recipient is configured, when
the hour differs from the configured heartbeat hour, or when the minute is
not strictly below the window width; and an attempt is produced only when
all sending conditions hold and no heartbeat was recorded for today. -/
theorem C7_heartbeat_conditions (cfg : Config) (now : LocalTime) (ok : Bool)
    (st : BotState) :
    ((cfg.defaultChatId = "" ∨ now.hour ≠ cfg.heartbeatHour ∨
        ¬ now.minute < cfg.heartbeatWindowMinutes) →
      maybe_send_daily_heartbeat cfg now ok st = (st, [])) ∧
    ((maybe_send_daily_heartbeat cfg now ok st).2 ≠ [] →
      cfg.defaultChatId ≠ "" ∧ now.hour = cfg.heartbeatHour ∧
        now.minute < cfg.heartbeatWindowMinutes ∧
        st.last_ping_date ≠ some now.dateIso) := by
  unfold maybe_send_daily_heartbeat
  constructor
  · intro h
    split_ifs with h1 h2 h3
    · rfl
    · rfl
    · rcases h with hA | hB | hC
      · exact absurd hA h1
      · exact absurd h3.1 hB
      · exact absurd h3.2 hC
    · rfl
  · intro hne
    split_ifs at hne with h1 h2 h3
    · simp at hne
    · simp at hne
    · exact ⟨h1, h3.1, h3.2, h2⟩
    · simp at hne

/-- C7 witness: at 08:03 with heartbeat hour 9 nothing is sent and the
state is unchanged. -/
theorem C7_heartbeat_conditions_witness :
    maybe_send_daily_heartbeat cfgA nowOff true emptyState = (emptyState, []) :=
  (C7_heartbeat_conditions cfgA nowOff true emptyState).1 (Or.inr (Or.inl (by decide)))

/-- C9: `send_telegram` never lets an error escape (`send_telegram_run`
always returns `.ok`); an empty recipient is a no-op; a non-empty
recipient yields exactly one attempt whose delivered flag records the HTTP
outcome. -/
theorem C9_send_no_propagate (c t : String) (ok : Bool) :
    send_telegram_run c t ok = .ok (send_telegram c t ok) ∧
    (c = "" → send_telegram c t ok = []) ∧
    (c ≠ "" → send_telegram c t ok = [⟨c, t, ok⟩]) := by
  by_cases hc : c = "" <;> cases ok <;>
    simp [send_telegram, send_telegram_run, tg_api_send, hc]

/-- C9 witness: the empty recipient is skipped; a failing HTTP call on a
non-empty recipient still returns normally with the failed attempt
recorded. -/
theorem C9_send_no_propagate_witness :
    send_telegram "" "hello" true = [] ∧
    send_telegram "123456" "hello" false = [⟨"123456", "hello", false⟩] ∧
    send_telegram_run "123456" "hello" false = .ok [⟨"123456", "hello", false⟩] := by
  have h1 := (C9_send_no_propagate "" "hello" true).2.1 rfl
  have h2 := (C9_send_no_propagate "123456" "hello" false).2.2 (by decide)
  have h3 := (C9_send_no_propagate "123456" "hello" false).1
  rw [h2] at h3
  exact ⟨h1, h2, h3⟩

/-- C10: with the send conditions met but delivery failing, the heartbeat
still records today in `last_ping_date` (the failed attempt is in the
log with `delivered = false`), and any later invocation on the same date
sends nothing, so the day gets no delivered heartbeat. -/
theorem C10_failed_delivery_not_retried (cfg : Config) (now : LocalTime)
    (st : BotState) (hchat : cfg.defaultChatId ≠ "")
    (hw : now.hour = cfg.heartbeatHour ∧ now.minute < cfg.heartbeatWindowMinutes)
    (hfresh : st.last_ping_date ≠ some now.dateIso) :
    (maybe_send_daily_heartbeat cfg now false st).1.last_ping_date = some now.dateIso ∧
    (maybe_send_daily_heartbeat cfg now false st).2 =
      [⟨cfg.defaultChatId, heartbeatText now, false⟩] ∧
    ∀ (n2 : LocalTime) (ok2 : Bool), n2.dateIso = now.dateIso →
      maybe_send_daily_heartbeat cfg n2 ok2 (maybe_send_daily_heartbeat cfg now false st).1 =
        ((maybe_send_daily_heartbeat cfg now false st).1, []) := by
  have h1 : maybe_send_daily_heartbeat cfg now false st =
      ({ st with last_ping_date := some now.dateIso },
       send_telegram cfg.defaultChatId (heartbeatText now) false) := by
    unfold maybe_send_daily_heartbeat
    rw [if_neg hchat, if_neg hfresh, if_pos hw]
  refine ⟨by rw [h1], ?_, ?_⟩
  · rw [h1]
    exact send_telegram_eq _ _ _ hchat
  · intro n2 ok2 hd2
    rw [h1]
    show maybe_send_daily_heartbeat cfg n2 ok2
        { st with last_ping_date := some now.dateIso } =
      ({ st with last_ping_date := some now.dateIso }, [])
    have hlpd : ({ st with last_ping_date := some now.dateIso } : BotState).last_ping_date =
        some n2.dateIso := by
      rw [hd2]
    unfold maybe_send_daily_heartbeat
    rw [if_neg hchat, if_pos hlpd]

/-- C10 witness: a failed 09:03 heartbeat records the date, logs one
undelivered attempt, and a 09:07 invocation on the same date is silent. -/
theorem C10_failed_delivery_not_retried_witness :
    (maybe_send_daily_heartbeat cfgA nowIn false emptyState).1.last_ping_date =
      some nowIn.dateIso ∧
    (maybe_send_daily_heartbeat cfgA nowIn false emptyState).2 =
      [⟨cfgA.defaultChatId, heartbeatText nowIn, false⟩] ∧
    maybe_send_daily_heartbeat cfgA nowIn2 true
        (maybe_send_daily_heartbeat cfgA nowIn false emptyState).1 =
      ((maybe_send_daily_heartbeat cfgA nowIn false emptyState).1, []) := by
  have h := C10_failed_delivery_not_retried cfgA nowIn emptyState (by decide)
    ⟨rfl, by decide⟩ (by decide)
  exact ⟨h.1, h.2.1, h.2.2 nowIn2 true rfl⟩

/-- C8: a failed read or parse of the state file yields the empty record
and never raises; the downstream first-run defaults are offset 0 (so the
next poll starts at 1), no recorded heartbeat date, and a stored
notification value whose string form is the Python `str(None)`; the whole
run then behaves exactly as with an explicit empty record. -/
theorem C8_load_failure (e : String) :
    load_state (.error e) = emptyState ∧
    emptyState.last_update_id.getD 0 = 0 ∧
    emptyState.last_ping_date = none ∧
    strOfNotified emptyState.last_notified_earliest = "None" ∧
    ∀ (cfg : Config) (poll : Int → Except String (List Update)) (now : LocalTime)
      (scrape : Option Nat) (ok : Bool),
      main_run cfg (.error e) poll now scrape ok =
        main_run cfg (.ok emptyState) poll now scrape ok :=
  ⟨rfl, rfl, rfl, rfl, fun _ _ _ _ _ => rfl⟩

/-- C1 counterexample: with no default recipient configured, a scraped
date that is strictly earlier than the threshold and string-different from
the stored value updates `last_notified_earliest` without any alert being
sent, so "alert sent and state updated iff the three conditions hold" is
false as stated. -/
theorem C1_counterexample :
    ¬((((scheduled_alert_pass cfgNoChat emptyState (some 20260201) true).2 ≠ [] ∧
        (scheduled_alert_pass cfgNoChat emptyState (some 20260201) true).1.last_notified_earliest =
          some 20260201) ↔
      (20260201 < cfgNoChat.myCurrentAppointment ∧
        toString (20260201 : Nat) ≠ strOfNotified emptyState.last_notified_earliest))) ∧
    (scheduled_alert_pass cfgNoChat emptyState (some 20260201) true).1.last_notified_earliest =
      some 20260201 ∧
    (scheduled_alert_pass cfgNoChat emptyState (some 20260201) true).2 = [] := by
  decide

/-- C1 (amended): with a default recipient configured, an alert attempt is
made and `last_notified_earliest` set to the scraped date iff a date was
found, it is strictly below the threshold, and its string form differs
from the stored value; in every other case nothing is sent and the state
is unchanged. -/
theorem C1_alert_iff (cfg : Config) (hchat : cfg.defaultChatId ≠ "") (st : BotState)
    (r : Option Nat) (ok : Bool) :
    (((scheduled_alert_pass cfg st r ok).2 ≠ [] ∧
        (scheduled_alert_pass cfg st r ok).1.last_notified_earliest = r) ↔
      ∃ e : Nat, r = some e ∧ e < cfg.myCurrentAppointment ∧
        toString e ≠ strOfNotified st.last_notified_earliest) ∧
    ((¬ ∃ e : Nat, r = some e ∧ e < cfg.myCurrentAppointment ∧
        toString e ≠ strOfNotified st.last_notified_earliest) →
      scheduled_alert_pass cfg st r ok = (st, [])) := by
  cases r with
  | none =>
    constructor
    · constructor
      · rintro ⟨h, -⟩
        exact absurd rfl h
      · rintro ⟨e, he, -, -⟩
        exact Option.noConfusion he
    · intro _
      rfl
  | some e =>
    by_cases hlt : e < cfg.myCurrentAppointment
    · by_cases hne : toString e ≠ strOfNotified st.last_notified_earliest
      · have hp : scheduled_alert_pass cfg st (some e) ok =
            ({ st with last_notified_earliest := some e },
             send_telegram cfg.defaultChatId (alertText cfg e) ok) := by
          simp only [scheduled_alert_pass]
          rw [if_pos hlt, if_pos hne, if_pos hchat]
        constructor
        · constructor
          · intro _
            exact ⟨e, rfl, hlt, hne⟩
          · intro _
            rw [hp]
            refine ⟨?_, rfl⟩
            show send_telegram cfg.defaultChatId (alertText cfg e) ok ≠ []
            rw [send_telegram_eq _ _ _ hchat]
            simp
        · intro hno
          exact absurd ⟨e, rfl, hlt, hne⟩ hno
      · have hp : scheduled_alert_pass cfg st (some e) ok = (st, []) := by
          simp only [scheduled_alert_pass]
          rw [if_pos hlt, if_neg hne]
        constructor
        · constructor
          · rintro ⟨h2, -⟩
            rw [hp] at h2
            exact absurd rfl h2
          · rintro ⟨e2, he2, -, hne2⟩
            obtain rfl : e = e2 := Option.some.inj he2
            exact absurd hne2 hne
        · intro _
          exact hp
    · have hp : scheduled_alert_pass cfg st (some e) ok = (st, []) := by
        simp only [scheduled_alert_pass]
        rw [if_neg hlt]
      constructor
      · constructor
        · rintro ⟨h2, -⟩
          rw [hp] at h2
          exact absurd rfl h2
        · rintro ⟨e2, he2, hlt2, -⟩
          obtain rfl : e = e2 := Option.some.inj he2
          exact absurd hlt2 hlt
      · intro _
        exact hp

/-- C1 witness: with a stored value 20260101 and a configured recipient, a
scrape of 20251231 produces an alert attempt and updates the state, while
a repeat scrape of 20260101 is de-duplicated (no attempt, state kept). -/
theorem C1_alert_iff_witness :
    ((scheduled_alert_pass cfgA stN (some 20251231) true).2 ≠ [] ∧
      (scheduled_alert_pass cfgA stN (some 20251231) true).1.last_notified_earliest =
        some 20251231) ∧
    scheduled_alert_pass cfgA stN (some 20260101) true = (stN, []) :=
  ⟨((C1_alert_iff cfgA (by decide) stN (some 20251231) true).1).mpr
      ⟨20251231, rfl, by decide, by decide⟩,
   by decide⟩

end TevisBot
